import Mathlib

/-!
Verification development for the redgenv2 lead-qualification pipeline.

The Python scoring core is shallowly embedded: Python strings become `List Char`,
Python floats become exact rationals (`ℚ`), Python dict-shaped records become
structures, and the process-wide dedup set becomes an explicit state parameter.
Embedded modules:

* `ultra_precise_ai.py` — dimension-score assembly, weighted composite,
  gated tier table (`_determine_tier`), pattern contribution formula.
* `rapid_iteration_engine.py` — `UltraAdvancedScoringV100` final-score
  aggregation, urgency-signal multiplier, threshold-only classifier.
* `advanced_service_intelligence.py` — intelligence boost tables.
* `optimized_lead_finder.py` — prefilter, urgency/budget boosts, adaptive
  scoring loop, final ranking and author dedup.
* `advanced_lead_scoring_v3.py` — V3 analyzer with content-hash dedup and
  content-creator short-circuit.
-/

set_option maxRecDepth 4000

/-! ## Text utilities

Python `str` is modeled as `List Char`.  The repository's pattern tables and
inputs are ASCII, so `str.lower` is modeled on ASCII letters. -/

/-- Text is a list of characters (the model of a Python `str`). -/
abbrev PyStr := List Char

/-- Convert a Lean string literal to the `PyStr` model. -/
def s2l (s : String) : PyStr := s.data

/-- ASCII lowercasing of one character (model of `str.lower` per character). -/
def ascii_lower (c : Char) : Char :=
  if 65 ≤ c.toNat ∧ c.toNat ≤ 90 then Char.ofNat (c.toNat + 32) else c

/-- Model of Python `str.lower()` on ASCII text. -/
def lower_text (t : PyStr) : PyStr := t.map ascii_lower

/-- Python whitespace characters (the `\s` class / `str.split` separators). -/
def is_py_space (c : Char) : Bool :=
  c = ' ' || c = '\t' || c = '\n' || c = '\r' || c = '\x0b' || c = '\x0c'

/-- Does `p` occur as a prefix of `t`? (helper for substring search). -/
def text_starts : PyStr → PyStr → Bool
  | [], _ => true
  | _ :: _, [] => false
  | p :: ps, t :: ts => p == t && text_starts ps ts

/-- Model of Python `pat in text` (contiguous substring occurrence). -/
def contains_sub (pat : PyStr) : PyStr → Bool
  | [] => text_starts pat []
  | c :: ts => text_starts pat (c :: ts) || contains_sub pat ts

/-- Helper for `split_ws`: accumulate the current word (reversed). -/
def split_ws_aux : PyStr → PyStr → List PyStr
  | [], acc => if acc.isEmpty then [] else [acc.reverse]
  | c :: ts, acc =>
    if is_py_space c then
      if acc.isEmpty then split_ws_aux ts [] else acc.reverse :: split_ws_aux ts []
    else split_ws_aux ts (c :: acc)

/-- Model of Python `str.split()` (split on whitespace runs, dropping empties). -/
def split_ws (t : PyStr) : List PyStr := split_ws_aux t []

/-- Model of Python `str.strip()` (drop leading and trailing whitespace). -/
def py_strip (t : PyStr) : PyStr :=
  ((t.dropWhile is_py_space).reverse.dropWhile is_py_space).reverse

/-- Helper for `collapse_ws`: the flag records whether the previous character
was whitespace (already emitted as a single space). -/
def collapse_ws_aux : PyStr → Bool → PyStr
  | [], _ => []
  | c :: ts, prevWs =>
    if is_py_space c then
      if prevWs then collapse_ws_aux ts true else ' ' :: collapse_ws_aux ts true
    else c :: collapse_ws_aux ts false

/-- Model of `re.sub(r"\s+", " ", t)`: every maximal whitespace run becomes one
space. -/
def collapse_ws (t : PyStr) : PyStr := collapse_ws_aux t false

/-- Python numeric `min` on rationals (an `if` on the decidable order, kept
kernel-computable). -/
def py_min (a b : ℚ) : ℚ := if a ≤ b then a else b

/-- Python numeric `max` on rationals (an `if` on the decidable order, kept
kernel-computable). -/
def py_max (a b : ℚ) : ℚ := if a ≤ b then b else a

/-! ### A small matcher for the source's `.*` regex patterns

The only regexes the embedded scoring paths use are literal substrings joined
by `.*` (e.g. `"1k.*10k.*followers"`).  `re.search` succeeds iff the literal
chunks occur in order, with the gaps between consecutive chunks free of
newlines (`.` does not match `\n`). -/

/-- Split a pattern string on the two-character sequence `.*` into its literal
chunks. -/
def split_dot_star_aux : PyStr → PyStr → List PyStr
  | [], acc => [acc.reverse]
  | '.' :: '*' :: ts, acc => acc.reverse :: split_dot_star_aux ts []
  | c :: ts, acc => split_dot_star_aux ts (c :: acc)

/-- Literal chunks of a `.*`-joined pattern. -/
def split_dot_star (pat : PyStr) : List PyStr := split_dot_star_aux pat []

/-- Fuel-driven matcher for the remaining chunks against `t`, where each chunk
may be preceded by a gap of non-newline characters (the `.*` between chunks).
The fuel dominates `t.length + chs.length`, so the zero-fuel case is
unreachable from `match_chunks_from`. -/
def match_chunks_fuel : ℕ → List PyStr → PyStr → Bool
  | _, [], _ => true
  | 0, _ :: _, _ => false
  | fuel + 1, ch :: chs, t =>
    (text_starts ch t && match_chunks_fuel fuel chs (t.drop ch.length)) ||
    (match t with
     | [] => false
     | c :: ts => !(c == '\n') && match_chunks_fuel fuel (ch :: chs) ts)

/-- Match the remaining chunks against `t` (adequately fueled). -/
def match_chunks_from (chs : List PyStr) (t : PyStr) : Bool :=
  match_chunks_fuel (t.length + chs.length) chs t

/-- Try every start position for the first chunk (model of `re.search`
scanning). -/
def re_search_aux (ch : PyStr) (rest : List PyStr) : PyStr → Bool
  | [] => text_starts ch [] && match_chunks_from rest []
  | c :: ts =>
    (text_starts ch (c :: ts) && match_chunks_from rest ((c :: ts).drop ch.length)) ||
    re_search_aux ch rest ts

/-- Model of `re.search(pat, t)` for the `.*`-joined literal patterns used by
the source (plain literals are the one-chunk case, where this is substring
search). -/
def re_search (pat : PyStr) (t : PyStr) : Bool :=
  match split_dot_star pat with
  | [] => true
  | ch :: rest => re_search_aux ch rest t

/-! ## `ultra_precise_ai.py` — dimension assembly, composite, gated tiers

The regex pattern tables feeding the six dimension scores are configuration
data; the functions below embed the assembly layer of
`UltraPreciseAI.analyze_lead_ultra_precise` (lines 205-232), taking the
dimension scores, context bonus, engagement score and semantic relevance as
inputs, exactly as `_calculate_weighted_composite` and `_determine_tier` do. -/

/-- The six dimension scores of `UltraPreciseAI` (the `scores` dict). -/
structure DimScores where
  urgency : ℚ
  budget : ℚ
  authority : ℚ
  quality : ℚ
  negative : ℚ
  business_context : ℚ
deriving DecidableEq

/-- Per-rule contribution of `_calculate_pattern_score`:
`weight * min(matches, 3) * 0.8 ** max(0, matches - 1)`.  `matches : ℕ`, so
Python's `max(0, matches - 1)` is truncated subtraction. -/
def pattern_contribution (weight : ℚ) (match_count : ℕ) : ℚ :=
  weight * (min match_count 3 : ℕ) * (4 / 5 : ℚ) ^ (match_count - 1)

/-- Model of `_calculate_pattern_score` given, per rule, its weight and its
number of non-overlapping regex matches in the text: rules with at least one
match contribute `pattern_contribution`. -/
def calculate_pattern_score (rule_matches : List (ℚ × ℕ)) : ℚ :=
  rule_matches.foldl
    (fun score wm => if 0 < wm.2 then score + pattern_contribution wm.1 wm.2 else score) 0

/-- Pre-clamp weighted sum of `_calculate_weighted_composite` (everything
before the final `max(0, ...)`): weighted positive dimensions, the three
bonuses, and the raw (typically negative) penalty score added as-is. -/
def weighted_composite_pre (s : DimScores)
    (context_bonus engagement_score semantic_relevance : ℚ) : ℚ :=
  s.urgency * (20 / 100) + s.budget * (30 / 100) + s.authority * (25 / 100) +
    s.quality * (15 / 100) + s.business_context * (10 / 100) +
    context_bonus * (5 / 10) + engagement_score * (3 / 10) +
    semantic_relevance * (4 / 10) +
    s.negative

/-- Model of `_calculate_weighted_composite` (returns `max(0, weighted_score)`). -/
def calculate_weighted_composite (s : DimScores)
    (context_bonus engagement_score semantic_relevance : ℚ) : ℚ :=
  py_max 0 (weighted_composite_pre s context_bonus engagement_score semantic_relevance)

/-- Model of `UltraPreciseAI._determine_tier`: ordered threshold table with
budget/authority gating conditions, first match wins. -/
def determine_tier (composite_score : ℚ) (s : DimScores) : String :=
  if composite_score ≥ 90 ∧ s.budget ≥ 15 ∧ s.authority ≥ 12 then "Platinum"
  else if composite_score ≥ 80 ∧ s.budget ≥ 10 then "Gold"
  else if composite_score ≥ 70 ∧ s.budget ≥ 5 then "Silver"
  else if composite_score ≥ 60 then "Bronze"
  else "Unqualified"

/-- Result record of `analyze_lead_ultra_precise` (the fields the claims are
about; the remaining dict entries are diagnostic strings). -/
structure UPResult where
  qualified : Bool
  lead_score : ℚ
  tier : String
deriving DecidableEq

/-- Model of the final assembly of `analyze_lead_ultra_precise` (lines
205-232): composite, qualification, clamped `lead_score`, tier. -/
def analyze_lead_ultra_precise (s : DimScores)
    (context_bonus engagement_score semantic_relevance : ℚ) : UPResult :=
  let composite_score :=
    calculate_weighted_composite s context_bonus engagement_score semantic_relevance
  { qualified := decide (composite_score ≥ 70 ∧ s.negative > -10)
    lead_score := py_min 100 (py_max 0 composite_score)
    tier := determine_tier composite_score s }

/-! ## `rapid_iteration_engine.py` — `UltraAdvancedScoringV100`

Only four of the component scores feed `_calculate_ultra_final_score`
(`semantic_similarity`, `ensemble_prediction`, `engagement_momentum`,
`urgency_signals`); they and the classifier are embedded below.  The other
components are diagnostic outputs not used by the final score. -/

/-- Key terms of `_calculate_semantic_similarity`. -/
def semantic_key_terms : List PyStr :=
  [s2l "manufacturer", s2l "supplier", s2l "sourcing", s2l "factory", s2l "wholesale"]

/-- Model of `_calculate_semantic_similarity`: `min(100, matches * 20)` over
the key terms found in `content.lower()` (the `title` argument is unused in
the source). -/
def calculate_semantic_similarity (content : PyStr) (_title : PyStr) : ℚ :=
  ((min 100 ((semantic_key_terms.countP
      (fun term => contains_sub term (lower_text content))) * 20) : ℕ) : ℚ)

/-- Model of `_ensemble_predict`: mean of the three simulated model outputs. -/
def ensemble_predict : ℚ := (65 + 72 + 68) / 3

/-- Model of `_calculate_engagement_momentum` (constant). -/
def engagement_momentum : ℚ := 65

/-- Urgency words of `_detect_urgency_signals`. -/
def urgency_signal_words : List PyStr :=
  [s2l "urgent", s2l "asap", s2l "immediately", s2l "rush", s2l "emergency"]

/-- Model of `_detect_urgency_signals`: `min(100, 20 * words present)`. -/
def detect_urgency_signals (content : PyStr) : ℚ :=
  ((min 100 ((urgency_signal_words.countP
      (fun w => contains_sub w (lower_text content))) * 20) : ℕ) : ℚ)

/-- Model of `_calculate_ultra_final_score`: base plus weighted boosts, scaled
by the urgency multiplier `1 + urgency_signals / 200`, clamped to `[0, 100]`. -/
def calculate_ultra_final_score (semantic ensemble momentum urgency : ℚ) : ℚ :=
  let base_score := semantic
  let ml_boost := ensemble * (3 / 10)
  let behavioral_factor := momentum * (2 / 10)
  let urgency_multiplier := 1 + urgency / 200
  py_min 100 (py_max 0 ((base_score + ml_boost + behavioral_factor) * urgency_multiplier))

/-- Model of `_enterprise_classify`: score thresholds only; the `scores`
argument is ignored by the source body. -/
def enterprise_classify (score : ℚ) (_scores : DimScores) : String × String :=
  if score ≥ 90 then ("Platinum", "Immediate")
  else if score ≥ 80 then ("Gold", "High")
  else if score ≥ 70 then ("Silver", "Medium")
  else if score ≥ 60 then ("Bronze", "Low")
  else ("Unqualified", "None")

/-- Result of `ultra_score_lead` (score and classification). -/
structure UltraScoreResult where
  ultra_score : ℚ
  tier : String
  priority : String
deriving DecidableEq

/-- Model of `UltraAdvancedScoringV100.ultra_score_lead`: aggregate the four
score-relevant components and classify.  The component `scores` dict passed to
`_enterprise_classify` is unused there, modeled by a zero record. -/
def ultra_score_lead (content title : PyStr) : UltraScoreResult :=
  let final_score :=
    calculate_ultra_final_score (calculate_semantic_similarity content title)
      ensemble_predict engagement_momentum (detect_urgency_signals content)
  let cls := enterprise_classify final_score ⟨0, 0, 0, 0, 0, 0⟩
  { ultra_score := final_score, tier := cls.1, priority := cls.2 }

/-! ## `advanced_service_intelligence.py` — intelligence boost

`analyze_service_intelligence` is called by the pipeline with the pipeline's
service-type names; its own pattern table is keyed by
`drone_services` / `manufacturing_services` / `video_editing_services`.
Pattern names are searched after `replace("_", " ")`; entries without a
`score_boost` key (the urgency-multiplier rows) contribute `get(..., 0) = 0`. -/

/-- The `iteration_patterns` table flattened per service key: search term
(underscores already replaced by spaces) and its `score_boost`. -/
def intelligence_pattern_tables : List (String × List (PyStr × ℚ)) :=
  [("drone_services",
    [(s2l "part 107 commercial", 25), (s2l "beyond visual line", 30),
     (s2l "night operations", 20), (s2l "over people waiver", 35),
     (s2l "infrastructure inspection", 30), (s2l "precision agriculture", 25),
     (s2l "emergency response", 35), (s2l "surveying mapping", 28),
     (s2l "thermal inspection", 32),
     (s2l "lidar equipped", 40), (s2l "thermal camera", 35),
     (s2l "multispectral sensors", 30), (s2l "rtk gps", 25),
     (s2l "faa part 107", 20), (s2l "airspace authorization", 15),
     (s2l "insurance coverage", 10), (s2l "remote id", 8),
     (s2l "real estate luxury", 22), (s2l "construction progress", 28),
     (s2l "solar inspection", 30), (s2l "oil gas pipeline", 45),
     (s2l "insurance claims", 35),
     (s2l "emergency response", 0), (s2l "insurance deadline", 0),
     (s2l "weather dependent", 0), (s2l "seasonal work", 0)]),
   ("manufacturing_services",
    [(s2l "high precision cnc", 35), (s2l "medical device", 40),
     (s2l "aerospace certified", 45), (s2l "automotive tier1", 38),
     (s2l "electronics assembly", 30),
     (s2l "nearshoring mexico", 25), (s2l "vietnam electronics", 20),
     (s2l "india precision", 22), (s2l "us reshoring", 30),
     (s2l "iso 9001", 15), (s2l "iso 13485 medical", 35),
     (s2l "as9100 aerospace", 40), (s2l "iatf 16949 auto", 30),
     (s2l "fda compliant", 38),
     (s2l "prototype development", 25), (s2l "small batch", 20),
     (s2l "medium production", 30), (s2l "high volume", 35),
     (s2l "industry 4 0", 30), (s2l "additive manufacturing", 25),
     (s2l "automation robotics", 28), (s2l "ai quality control", 35),
     (s2l "carbon neutral", 20), (s2l "circular economy", 18),
     (s2l "renewable energy", 15), (s2l "waste reduction", 12)]),
   ("video_editing_services",
    [(s2l "youtube long form", 20), (s2l "tiktok shorts", 25),
     (s2l "instagram reels", 22), (s2l "linkedin content", 18),
     (s2l "podcast video", 28),
     (s2l "educational content", 25), (s2l "corporate training", 30),
     (s2l "product demos", 28), (s2l "testimonials", 20),
     (s2l "live event recap", 35),
     (s2l "motion graphics", 30), (s2l "color grading", 25),
     (s2l "audio restoration", 35), (s2l "multi camera sync", 28),
     (s2l "vfx compositing", 40),
     (s2l "premiere pro", 15), (s2l "final cut pro", 12),
     (s2l "davinci resolve", 20), (s2l "after effects", 25),
     (s2l "avid media", 30),
     (s2l "wedding videography", 25), (s2l "corporate events", 30),
     (s2l "documentary production", 35), (s2l "commercial advertising", 40),
     (s2l "streaming content", 28),
     (s2l "same day turnaround", 0), (s2l "next day delivery", 0),
     (s2l "weekly deadline", 0), (s2l "monthly project", 0)])]

/-- Pattern rows for one service type (`[]` for service types not in the
table, matching `_analyze_service_patterns`'s early return of boost 0). -/
def intelligence_pattern_table (service_type : String) : List (PyStr × ℚ) :=
  ((intelligence_pattern_tables.find? (fun e => e.1 == service_type)).map Prod.snd).getD []

/-- Model of `_analyze_service_patterns`: accumulate the boosts of the pattern
search terms present in the text, capped at 50. -/
def analyze_service_patterns_boost (service_type : String) (text : PyStr) : ℚ :=
  py_min ((intelligence_pattern_table service_type).foldl
    (fun acc pb => if contains_sub pb.1 text then acc + pb.2 else acc) 0) 50

/-- The `urgency_multipliers` keyword table, flattened in dict order
(immediate 3.0, high 2.0, medium 1.5, low 1.0). -/
def intelligence_urgency_keywords : List (PyStr × ℚ) :=
  [(s2l "urgent", 3), (s2l "asap", 3), (s2l "emergency", 3), (s2l "immediate", 3),
   (s2l "rush", 3),
   (s2l "deadline", 2), (s2l "soon", 2), (s2l "quickly", 2), (s2l "priority", 2),
   (s2l "time-sensitive", 2),
   (s2l "prefer", 3 / 2), (s2l "hoping", 3 / 2), (s2l "looking for", 3 / 2),
   (s2l "planning", 3 / 2),
   (s2l "eventually", 1), (s2l "future", 1), (s2l "considering", 1), (s2l "exploring", 1)]

/-- Model of `_analyze_urgency_patterns`: max multiplier over matched
keywords, starting from 0 (no keyword found leaves the multiplier at 0). -/
def analyze_urgency_multiplier (text : PyStr) : ℚ :=
  intelligence_urgency_keywords.foldl
    (fun acc km => if contains_sub km.1 text then py_max acc km.2 else acc) 0

/-- The `budget_indicators` table, flattened in dict order
(enterprise 2.5, high 2.0, medium 1.5, low 1.0). -/
def intelligence_budget_keywords : List (PyStr × ℚ) :=
  [(s2l "budget allocated", 5 / 2), (s2l "approved funding", 5 / 2),
   (s2l "corporate budget", 5 / 2),
   (s2l "investment ready", 2), (s2l "serious budget", 2),
   (s2l "substantial funding", 2),
   (s2l "budget planning", 3 / 2), (s2l "cost consideration", 3 / 2),
   (s2l "price range", 3 / 2),
   (s2l "tight budget", 1), (s2l "cost-effective", 1), (s2l "affordable", 1)]

/-- Model of `_analyze_budget_patterns`: max multiplier over matched
indicators, starting from 1.0. -/
def analyze_budget_multiplier (text : PyStr) : ℚ :=
  intelligence_budget_keywords.foldl
    (fun acc km => if contains_sub km.1 text then py_max acc km.2 else acc) 1

/-- `quality_filters["high_intent"]`. -/
def quality_high_intent : List PyStr :=
  [s2l "looking for", s2l "need help with", s2l "seeking", s2l "require",
   s2l "must have", s2l "project starting", s2l "deadline approaching",
   s2l "budget approved", s2l "ready to hire"]

/-- `quality_filters["decision_authority"]`. -/
def quality_decision_authority : List PyStr :=
  [s2l "decision maker", s2l "authorized to", s2l "company owner",
   s2l "project manager", s2l "procurement", s2l "sourcing manager",
   s2l "buying for", s2l "budget authority"]

/-- `quality_filters["quality_requirements"]`. -/
def quality_requirements_list : List PyStr :=
  [s2l "professional quality", s2l "high standards", s2l "certified",
   s2l "experienced", s2l "proven track record", s2l "references required",
   s2l "portfolio review"]

/-- `quality_filters["exclude_patterns"]`. -/
def quality_exclude_list : List PyStr :=
  [s2l "just browsing", s2l "maybe someday", s2l "thinking about",
   s2l "not sure if", s2l "free advice", s2l "volunteer work",
   s2l "student project", s2l "personal hobby"]

/-- Model of `_analyze_quality_patterns`: weighted positive indicator counts
minus the exclusion penalty, floored at 0.1 and capped at 2.0. -/
def analyze_quality_modifier (text : PyStr) : ℚ :=
  let hi := quality_high_intent.countP (fun p => contains_sub p text)
  let auth := quality_decision_authority.countP (fun p => contains_sub p text)
  let req := quality_requirements_list.countP (fun p => contains_sub p text)
  let excl := quality_exclude_list.countP (fun p => contains_sub p text)
  let positive_score := (hi : ℚ) * (4 / 10) + (auth : ℚ) * (3 / 10) + (req : ℚ) * (3 / 10)
  let exclusion_penalty := (excl : ℚ) * (2 / 10)
  py_min (py_max (1 / 10) (positive_score - exclusion_penalty)) 2

/-- Model of `analyze_service_intelligence`'s `intelligence_score` entry:
`min(base * urgency * budget * quality, 100)` over
`text = (title + " " + content).lower()`. -/
def intelligence_score (content title : PyStr) (service_type : String) : ℚ :=
  let text := lower_text (title ++ s2l " " ++ content)
  py_min (analyze_service_patterns_boost service_type text *
    analyze_urgency_multiplier text * analyze_budget_multiplier text *
    analyze_quality_modifier text) 100

/-! ## `optimized_lead_finder.py` — prefilter, boosts, adaptive scoring, ranking -/

/-- One prospect record as consumed by the scoring loop: the text fields plus
the Reddit engagement metric (`metadata["score"]`). -/
structure Prospect where
  content : PyStr
  title : PyStr
  author : PyStr
  score : ℚ
deriving DecidableEq

/-- The generic business-term set of `_fast_prefilter`. -/
def business_terms : List PyStr :=
  [s2l "need", s2l "looking", s2l "help", s2l "service", s2l "business",
   s2l "urgent", s2l "budget", s2l "cost"]

/-- The combined lowercased text `(content + " " + title).lower()` used by
`_fast_prefilter`. -/
def combined_text (p : Prospect) : PyStr :=
  lower_text (p.content ++ s2l " " ++ p.title)

/-- The keep-condition of one `_fast_prefilter` loop iteration: skip short or
sentinel content, then require word overlap with the service-description
vocabulary or with the generic business terms. -/
def prefilter_keeps (service_words : List PyStr) (p : Prospect) : Bool :=
  let content := combined_text p
  if content.length < 15 ∨ content = s2l "[deleted]" ∨ content = s2l "[removed]" ∨
      content = [] then
    false
  else
    let content_words := split_ws content
    content_words.any (fun w => service_words.contains w) ||
      content_words.any (fun w => business_terms.contains w)

/-- Model of `_fast_prefilter`. -/
def fast_prefilter (prospects : List Prospect) (service_description : PyStr) :
    List Prospect :=
  let service_words := split_ws (lower_text service_description)
  prospects.filter (prefilter_keeps service_words)

/-- The score-relevant fields of one `service_map` entry (the subreddit and
search-term lists are scraping configuration, unused by scoring). -/
structure ServiceConfig where
  urgency_patterns : List PyStr
  budget_patterns : List PyStr
  min_score : ℚ
  target_tiers : List String
deriving DecidableEq

/-- General urgency terms of `_detect_urgency`. -/
def general_urgent_terms : List PyStr :=
  [s2l "urgent", s2l "asap", s2l "immediately", s2l "rush", s2l "deadline",
   s2l "emergency"]

/-- Model of `_detect_urgency`: +5 per service urgency pattern present, +3 per
general urgency term present, capped at 15. -/
def detect_urgency (content title : PyStr) (config : ServiceConfig) : ℚ :=
  let text := lower_text (content ++ s2l " " ++ title)
  ((min ((config.urgency_patterns.countP
      (fun pat => contains_sub (lower_text pat) text)) * 5 +
    (general_urgent_terms.countP (fun term => contains_sub term text)) * 3) 15 : ℕ) : ℚ)

/-- General budget terms of `_detect_budget_signals`. -/
def general_budget_terms : List PyStr :=
  [s2l "budget", s2l "cost", s2l "price", s2l "investment", s2l "spend",
   s2l "fee", s2l "rate"]

/-- Model of `_detect_budget_signals`: +4 per service budget pattern present,
+2 per general budget term present, capped at 12. -/
def detect_budget_signals (content title : PyStr) (config : ServiceConfig) : ℚ :=
  let text := lower_text (content ++ s2l " " ++ title)
  ((min ((config.budget_patterns.countP
      (fun pat => contains_sub (lower_text pat) text)) * 4 +
    (general_budget_terms.countP (fun term => contains_sub term text)) * 2) 12 : ℕ) : ℚ)

/-- The score-relevant fields of `service_map["manufacturing & sourcing"]`. -/
def manufacturing_sourcing_config : ServiceConfig :=
  { urgency_patterns :=
      [s2l "urgent manufacturing needed", s2l "production crisis",
       s2l "supplier failure emergency", s2l "rush manufacturing order",
       s2l "immediate production capacity", s2l "time-critical manufacturing",
       s2l "supply chain disruption", s2l "manufacturing deadline pressure",
       s2l "urgent supplier qualification"]
    budget_patterns :=
      [s2l "manufacturing investment budget", s2l "production cost optimization",
       s2l "tooling budget allocation", s2l "contract manufacturing pricing",
       s2l "supply chain budget", s2l "quality system investment",
       s2l "automation investment", s2l "manufacturing capex",
       s2l "production volume pricing"]
    min_score := 30
    target_tiers := ["Platinum", "Gold"] }

/-- One qualified lead as appended by `_score_leads_adaptively`.  The source
dict carries further diagnostic fields; `authority_score` does not exist in
the source record at all and is carried here (as 0 for pipeline-produced
leads) only so that the specified ranking order, which names an authority
tie-break, can be stated against `rank_and_optimize`. -/
structure Lead where
  lead_score : ℚ
  base_score : ℚ
  urgency_boost : ℚ
  budget_boost : ℚ
  intelligence_boost : ℚ
  classification_tier : String
  priority_level : String
  author : PyStr
  engagement : ℚ
  authority_score : ℚ
deriving DecidableEq

/-- The loop body of `_score_leads_adaptively` for one (pre-filtered)
prospect: boosts, intelligence boost, ultra score, service-specific final
score, and the permissive qualification test; `none` when not qualified. -/
def score_prospect (service_type : String) (config : ServiceConfig)
    (p : Prospect) : Option Lead :=
  let urgency_boost := detect_urgency p.content p.title config
  let budget_boost := detect_budget_signals p.content p.title config
  let intelligence_boost := intelligence_score p.content p.title service_type * (5 / 10)
  let scoring_result := ultra_score_lead p.content p.title
  let final_score :=
    scoring_result.ultra_score + urgency_boost + budget_boost + intelligence_boost
  let score_threshold := py_max 20 (config.min_score * (6 / 10))
  let tier_qualified :=
    config.target_tiers.contains scoring_result.tier || scoring_result.tier != "None"
  if final_score ≥ score_threshold ∧ tier_qualified then
    some { lead_score := final_score
           base_score := scoring_result.ultra_score
           urgency_boost := urgency_boost
           budget_boost := budget_boost
           intelligence_boost := intelligence_boost
           classification_tier := scoring_result.tier
           priority_level := scoring_result.priority
           author := p.author
           engagement := p.score
           authority_score := 0 }
  else none

/-- Model of `_score_leads_adaptively`: pre-filter, then score every
surviving prospect, keeping the qualified ones. -/
def score_leads_adaptively (prospects : List Prospect) (service_type : String)
    (config : ServiceConfig) (service_description : PyStr) : List Lead :=
  (fast_prefilter prospects service_description).filterMap
    (score_prospect service_type config)

/-- The sort key of `_rank_and_optimize`:
`(lead_score, urgency_boost, budget_boost, score)`, compared
lexicographically. -/
def lead_sort_key (l : Lead) : Lex (ℚ × Lex (ℚ × Lex (ℚ × ℚ))) :=
  toLex (l.lead_score, toLex (l.urgency_boost, toLex (l.budget_boost, l.engagement)))

/-- The ordering used by the embedded sort: `a` may come before `b` iff `a`'s
key is at least `b`'s (stable descending sort, matching Python's stable
`list.sort(key=..., reverse=True)`). -/
def lead_order (a b : Lead) : Prop := lead_sort_key b ≤ lead_sort_key a

instance : DecidableRel lead_order :=
  fun a b => inferInstanceAs (Decidable (lead_sort_key b ≤ lead_sort_key a))

instance : IsTotal Lead lead_order :=
  ⟨fun a b => by
    unfold lead_order
    exact (le_total (lead_sort_key a) (lead_sort_key b)).symm⟩

instance : IsTrans Lead lead_order :=
  ⟨fun _ _ _ hab hbc => by
    unfold lead_order at *
    exact le_trans hbc hab⟩

/-- The author-dedup loop of `_rank_and_optimize`: keep a lead iff its author
is unseen and fewer than `k` leads have been kept so far. -/
def dedup_by_author : ℕ → List PyStr → List Lead → List Lead
  | _, _, [] => []
  | k, seen, l :: ls =>
    if l.author ∉ seen ∧ 0 < k then
      l :: dedup_by_author (k - 1) (l.author :: seen) ls
    else
      dedup_by_author k seen ls

/-- Model of `_rank_and_optimize`: stable descending sort by
`lead_sort_key`, then author dedup truncated to `max_results`. -/
def rank_and_optimize (leads : List Lead) (max_results : ℕ) : List Lead :=
  dedup_by_author max_results [] (List.insertionSort lead_order leads)

/-- Modelled from the spec: the ranking key claimed by the specification,
`(composite, urgency, budget, authority, engagement)` descending — it
inserts an authority tie-break between budget and engagement. -/
def spec_sort_key (l : Lead) : Lex (ℚ × Lex (ℚ × Lex (ℚ × Lex (ℚ × ℚ)))) :=
  toLex (l.lead_score, toLex (l.urgency_boost,
    toLex (l.budget_boost, toLex (l.authority_score, l.engagement))))

/-- Modelled from the spec: a list is ranked per the specification when it is
sorted descending by `spec_sort_key`. -/
def spec_ranked (ls : List Lead) : Prop :=
  List.Sorted (fun a b => spec_sort_key b ≤ spec_sort_key a) ls

/-! ## `advanced_lead_scoring_v3.py` — V3 analyzer

`analyze_lead_v3` is embedded with the instance-level `seen_content_hashes`
set as an explicit state parameter.  Comments are modeled by their `content`
string.  The md5 digest of `_generate_content_hash` is modeled as the
identity on the hash-input string: the theorems use only that equal inputs
give equal digests.  Output fields of the result dict other than
`lead_score` / `tier` / `is_qualified` are diagnostic and not modeled. -/

/-- Social-media indicator terms of `_detect_service_type`. -/
def social_indicators : List PyStr :=
  [s2l "social media", s2l "instagram", s2l "tiktok", s2l "youtube",
   s2l "content creator", s2l "influencer", s2l "followers", s2l "engagement",
   s2l "posting", s2l "algorithm"]

/-- Social-media subreddit terms of `_detect_service_type`. -/
def social_subreddits : List PyStr :=
  [s2l "socialmedia", s2l "instagram", s2l "tiktok", s2l "youtube",
   s2l "influencer", s2l "contentcreator"]

/-- Video-editing indicator terms of `_detect_service_type`. -/
def video_indicators : List PyStr :=
  [s2l "video editing", s2l "premiere", s2l "after effects", s2l "color grading",
   s2l "videography", s2l "wedding video", s2l "corporate video", s2l "render"]

/-- Video-editing subreddit terms of `_detect_service_type`. -/
def video_subreddits : List PyStr :=
  [s2l "videoediting", s2l "videography", s2l "filmmakers", s2l "premiere",
   s2l "aftereffects"]

/-- Drone indicator terms of `_detect_service_type`. -/
def drone_indicators : List PyStr :=
  [s2l "drone", s2l "drones", s2l "aerial", s2l "dji", s2l "phantom",
   s2l "mavic", s2l "part 107", s2l "commercial drone", s2l "gimbal", s2l "fpv"]

/-- Drone subreddit terms of `_detect_service_type`. -/
def drone_subreddits : List PyStr :=
  [s2l "drones", s2l "dji", s2l "commercialdrone", s2l "aerial", s2l "fpv",
   s2l "droneracing"]

/-- Manufacturing indicator terms of `_detect_service_type`. -/
def manufacturing_indicators : List PyStr :=
  [s2l "manufacturing", s2l "sourcing", s2l "supplier", s2l "factory",
   s2l "alibaba"]

/-- Model of `_detect_service_type`: score each service type (1 per indicator
in the text, 3 per subreddit term in the subreddit name) and return the first
maximum in the dict order social, video, drone, manufacturing (Python `max`
over `dict.items()` returns the first maximal entry). -/
def detect_service_type (content title subreddit : PyStr) : String :=
  let full_text := lower_text (title ++ s2l " " ++ content)
  let sub := lower_text subreddit
  let social := social_indicators.countP (fun i => contains_sub i full_text) +
    3 * social_subreddits.countP (fun i => contains_sub i sub)
  let video := video_indicators.countP (fun i => contains_sub i full_text) +
    3 * video_subreddits.countP (fun i => contains_sub i sub)
  let drone := drone_indicators.countP (fun i => contains_sub i full_text) +
    3 * drone_subreddits.countP (fun i => contains_sub i sub)
  let manufacturing := manufacturing_indicators.countP (fun i => contains_sub i full_text)
  if social ≥ video ∧ social ≥ drone ∧ social ≥ manufacturing then "social_media"
  else if video ≥ drone ∧ video ≥ manufacturing then "video_editing"
  else if drone ≥ manufacturing then "drone_services"
  else "manufacturing"

/-- Best service-pattern match record of `_analyze_service_specific_patterns`
(the `budget_estimate` string is diagnostic and not modeled). -/
structure ServicePatternMatch where
  category : String
  score : ℚ
  priority : String
deriving DecidableEq

/-- The `service_complexity_patterns` table: per service type, the categories
in dict order with their `.*` regex patterns, score and priority. -/
def service_complexity_tables :
    List (String × List (String × List PyStr × ℚ × String)) :=
  [("social_media",
    [("micro_influencer",
      ([s2l "1k.*10k.*followers", s2l "small.*following", s2l "starting.*out",
        s2l "growing.*audience"], 85, "high")),
     ("established_creator",
      ([s2l "100k.*followers", s2l "monetizing", s2l "brand.*partnerships",
        s2l "sponsored.*content"], 95, "immediate")),
     ("agency_scaling",
      ([s2l "multiple.*clients", s2l "social.*media.*agency",
        s2l "team.*of.*creators", s2l "scaling.*operations"], 98, "immediate")),
     ("burnout_signals",
      ([s2l "burnt.*out", s2l "overwhelmed.*posting", s2l "consistency.*struggle",
        s2l "need.*help.*content"], 92, "immediate"))]),
   ("video_editing",
    [("professional_needs",
      ([s2l "4k.*video", s2l "color.*grading", s2l "wedding.*videography",
        s2l "corporate.*video", s2l "motion.*graphics"], 94, "high")),
     ("urgent_projects",
      ([s2l "rush.*editing", s2l "urgent.*deadline", s2l "same.*day.*turnaround",
        s2l "asap.*video"], 98, "immediate")),
     ("workflow_optimization",
      ([s2l "editing.*workflow", s2l "render.*time", s2l "premiere.*crashing",
        s2l "storage.*issues"], 88, "high")),
     ("content_creator_volume",
      ([s2l "youtube.*channel", s2l "daily.*videos", s2l "content.*creation",
        s2l "multiple.*projects"], 91, "high"))]),
   ("drone_services",
    [("commercial_operations",
      ([s2l "commercial.*drone", s2l "part.*107", s2l "aerial.*photography.*business",
        s2l "drone.*services.*company"], 96, "immediate")),
     ("fleet_management",
      ([s2l "multiple.*drones", s2l "drone.*fleet", s2l "expanding.*operations",
        s2l "scaling.*business"], 98, "immediate")),
     ("repair_urgent",
      ([s2l "drone.*crashed", s2l "gimbal.*broken", s2l "urgent.*repair",
        s2l "parts.*needed.*asap"], 94, "immediate")),
     ("professional_upgrade",
      ([s2l "upgrade.*equipment", s2l "better.*camera", s2l "professional.*grade",
        s2l "high.*end.*drone"], 89, "high"))]),
   ("manufacturing",
    [("simple",
      ([s2l "simple", s2l "basic", s2l "standard", s2l "off-shelf",
        s2l "existing design"], 80, "medium")),
     ("complex",
      ([s2l "engineering", s2l "design from scratch", s2l "prototype",
        s2l "r&d", s2l "innovation"], 92, "high"))])]

/-- Category scan of `_analyze_service_specific_patterns`: a category whose
regex matches replaces the best match when its score is strictly greater. -/
def best_pattern_fold (text : PyStr) :
    List (String × List PyStr × ℚ × String) → ServicePatternMatch →
      ServicePatternMatch
  | [], best => best
  | (cat, pats, sc, prio) :: rest, best =>
    best_pattern_fold text rest
      (if pats.any (fun p => re_search p text) ∧ sc > best.score then
        { category := cat, score := sc, priority := prio }
      else best)

/-- Model of `_analyze_service_specific_patterns`. -/
def analyze_service_specific_patterns (text : PyStr) (service_type : String) :
    ServicePatternMatch :=
  match (service_complexity_tables.find? (fun e => e.1 == service_type)).map Prod.snd with
  | none => { category := "unknown", score := 50, priority := "medium" }
  | some tbl => best_pattern_fold text tbl { category := "basic", score := 50, priority := "medium" }

/-- Urgency assessment (`level` and `score`) of `_assess_urgency_indicators`. -/
structure UrgencyAssessment where
  level : String
  score : ℚ
deriving DecidableEq

/-- The urgency pattern table in dict order with base scores. -/
def urgency_patterns_v3 : List (String × List PyStr × ℚ) :=
  [("immediate",
    ([s2l "urgent", s2l "asap", s2l "rush", s2l "deadline", s2l "emergency",
      s2l "same day", s2l "tomorrow"], 95)),
   ("high",
    ([s2l "soon", s2l "quickly", s2l "this week", s2l "time sensitive",
      s2l "priority"], 80)),
   ("medium",
    ([s2l "planning", s2l "looking ahead", s2l "future", s2l "considering"], 60)),
   ("low",
    ([s2l "eventually", s2l "someday", s2l "when ready", s2l "no rush"], 30))]

/-- The service-specific urgency multipliers of `_assess_urgency_indicators`
(`dict.get(service_type, 1.0)`). -/
def service_multiplier_v3 (service_type : String) : ℚ :=
  if service_type = "social_media" then 12 / 10
  else if service_type = "video_editing" then 15 / 10
  else if service_type = "drone_services" then 13 / 10
  else if service_type = "manufacturing" then 1
  else 1

/-- First-match scan of the urgency levels; the Python `int()` truncation of
the positive product is the floor. -/
def first_urgency_match (text : PyStr) (m : ℚ) :
    List (String × List PyStr × ℚ) → UrgencyAssessment
  | [] => { level := "medium", score := 60 }
  | (level, pats, base) :: rest =>
    if pats.any (fun p => re_search p text) then
      { level := level, score := py_min 100 ((⌊base * m⌋ : ℤ) : ℚ) }
    else first_urgency_match text m rest

/-- Model of `_assess_urgency_indicators`. -/
def assess_urgency_indicators (text : PyStr) (service_type : String) :
    UrgencyAssessment :=
  first_urgency_match text (service_multiplier_v3 service_type) urgency_patterns_v3

/-- The `sophistication_indicators` table per service, listed in the source's
check order expert (95), advanced (80), intermediate (60), basic (40). -/
def sophistication_tables : List (String × List (List PyStr × ℚ)) :=
  [("social_media",
    [([s2l "programmatic", s2l "machine learning", s2l "predictive analytics"], 95),
     ([s2l "multi-platform", s2l "api integration", s2l "automation",
       s2l "attribution"], 80),
     ([s2l "content strategy", s2l "analytics", s2l "scheduling",
       s2l "engagement"], 60),
     ([s2l "instagram", s2l "posting", s2l "social media"], 40)]),
   ("video_editing",
    [([s2l "8k", s2l "real-time rendering", s2l "ai enhancement",
       s2l "cinema grade"], 95),
     ([s2l "motion graphics", s2l "vfx", s2l "multi-camera", s2l "4k"], 80),
     ([s2l "color grading", s2l "audio sync", s2l "transitions"], 60),
     ([s2l "video editing", s2l "simple cuts", s2l "basic"], 40)]),
   ("drone_services",
    [([s2l "autonomous missions", s2l "ai navigation", s2l "lidar",
       s2l "thermal imaging"], 95),
     ([s2l "part 107", s2l "fleet management", s2l "mapping", s2l "surveying"], 80),
     ([s2l "commercial drone", s2l "real estate", s2l "photography"], 60),
     ([s2l "drone", s2l "aerial photos", s2l "hobby"], 40)])]

/-- First-match scan of the sophistication levels. -/
def first_sophistication_match (text : PyStr) : List (List PyStr × ℚ) → ℚ
  | [] => 60
  | (pats, sc) :: rest =>
    if pats.any (fun p => re_search p text) then sc
    else first_sophistication_match text rest

/-- Model of `_assess_technical_sophistication` (only the score is consumed
downstream). -/
def assess_technical_sophistication (text : PyStr) (service_type : String) : ℚ :=
  match (sophistication_tables.find? (fun e => e.1 == service_type)).map Prod.snd with
  | none => 60
  | some levels => first_sophistication_match text levels

/-- Budget analysis of `_analyze_budget_signals_advanced` (the consumed
fields; `range` and `modifier` are diagnostic). -/
structure BudgetAnalysis where
  score : ℚ
  readiness_indicators : Bool
deriving DecidableEq

/-- The `budget_signals` levels in dict order with their `60 * score_modifier`
values (0.7, 0.9, 1.2, 1.4, 1.6 give 42, 54, 72, 84, 96). -/
def budget_signal_levels : List (List PyStr × ℚ) :=
  [([s2l "under.*1000", s2l "less.*thousand", s2l "small.*budget",
     s2l "tight.*budget"], 42),
   ([s2l "1000.*5000", s2l "1k.*5k", s2l "few.*thousand"], 54),
   ([s2l "5000.*50000", s2l "5k.*50k", s2l "moderate.*budget"], 72),
   ([s2l "50000.*500000", s2l "50k.*500k", s2l "substantial.*budget"], 84),
   ([s2l "500000", s2l "500k", s2l "million", s2l "large.*scale",
     s2l "enterprise.*budget"], 96)]

/-- Model of `_analyze_budget_signals_advanced`: max matched level score plus
flat readiness additions, capped at 100. -/
def analyze_budget_signals_advanced (text : PyStr) : BudgetAnalysis :=
  let max_score := budget_signal_levels.foldl
    (fun acc lv =>
      if lv.1.any (fun p => re_search p text) ∧ lv.2 > acc then lv.2 else acc) 0
  let budget_readiness : ℚ :=
    (if contains_sub (s2l "approved budget") text then 30 else 0) +
    (if contains_sub (s2l "investment ready") text then 25 else 0) +
    (if contains_sub (s2l "funding secured") text then 35 else 0)
  { score := py_min (max_score + budget_readiness) 100
    readiness_indicators := decide (budget_readiness > 0) }

/-- Authority analysis (`level` and `score`) of `_assess_decision_authority`. -/
structure AuthorityAnalysis where
  level : String
  score : ℚ
deriving DecidableEq

/-- The `authority_levels` table in dict order. -/
def authority_levels_v3 : List (String × List PyStr × ℚ) :=
  [("owner",
    ([s2l "owner", s2l "founder", s2l "ceo", s2l "president", s2l "my company",
      s2l "my business"], 100)),
   ("executive",
    ([s2l "director", s2l "vp", s2l "manager", s2l "head of", s2l "lead"], 80)),
   ("employee",
    ([s2l "employee", s2l "work for", s2l "my boss", s2l "supervisor"], 40)),
   ("consultant",
    ([s2l "consultant", s2l "advisor", s2l "helping client", s2l "on behalf"], 60))]

/-- Update step of `_assess_decision_authority`: a matched level with a
strictly greater authority score replaces the current detection. -/
def authority_update (acc : AuthorityAnalysis) (level : String) (sc : ℚ)
    (matched : Bool) : AuthorityAnalysis :=
  if matched ∧ sc > acc.score then { level := level, score := sc } else acc

/-- Model of `_assess_decision_authority`: text pass over all indicators, then
author pass over each level's first three indicators. -/
def assess_decision_authority (text author : PyStr) : AuthorityAnalysis :=
  let after_text := authority_levels_v3.foldl
    (fun acc lv =>
      authority_update acc lv.1 lv.2.2 (lv.2.1.any (fun i => contains_sub i text)))
    { level := "unknown", score := 0 }
  let author_lower := lower_text author
  authority_levels_v3.foldl
    (fun acc lv =>
      authority_update acc lv.1 lv.2.2
        ((lv.2.1.take 3).any (fun i => contains_sub i author_lower)))
    after_text

/-- Competitor names of `_analyze_competitive_landscape`. -/
def competitors_v3 : List PyStr :=
  [s2l "alibaba", s2l "global sources", s2l "made-in-china", s2l "dhgate"]

/-- Negative-experience terms of `_analyze_competitive_landscape`. -/
def negative_terms_v3 : List PyStr :=
  [s2l "bad experience", s2l "avoid", s2l "terrible", s2l "scam"]

/-- Model of `_analyze_competitive_landscape`: 15 per competitor mention plus
25 per (competitor present, negative term present) pair, capped at 100. -/
def analyze_competitive_landscape (text : PyStr) : ℚ :=
  let competitor_mentions := competitors_v3.countP (fun c => contains_sub c text)
  let negative_experiences :=
    competitor_mentions * negative_terms_v3.countP (fun n => contains_sub n text)
  ((min 100 (competitor_mentions * 15 + negative_experiences * 25) : ℕ) : ℚ)

/-- Original advisor patterns of `_detect_content_creator_v3`. -/
def creator_patterns_v3 : List PyStr :=
  [s2l "i help", s2l "i helped", s2l "consultant", s2l "here\x27s how",
   s2l "my experience", s2l "success story", s2l "ama", s2l "ask me anything",
   s2l "sharing my", s2l "tutorial"]

/-- Enhanced advisor patterns of `_detect_content_creator_v3`. -/
def enhanced_patterns_v3 : List PyStr :=
  [s2l "my journey", s2l "lessons learned", s2l "what i discovered",
   s2l "my approach", s2l "strategy that worked", s2l "how i achieved",
   s2l "my method", s2l "tips from experience"]

/-- Number of the item's comments whose content contains a question mark. -/
def count_question_comments (comments : List PyStr) : ℕ :=
  comments.countP (fun c => contains_sub (s2l "?") c)

/-- The strong-indicator count of `_detect_content_creator_v3`: advisor
patterns present in the text, plus 2 when more than 3 comments contain a
question mark. -/
def strong_indicator_count (text : PyStr) (comments : List PyStr) : ℕ :=
  (creator_patterns_v3 ++ enhanced_patterns_v3).countP (fun p => contains_sub p text) +
    (if 3 < count_question_comments comments then 2 else 0)

/-- Model of `_detect_content_creator_v3` (the `title` argument is unused in
the source body). -/
def detect_content_creator_v3 (text _title : PyStr) (comments : List PyStr) : Bool :=
  decide (2 ≤ strong_indicator_count text comments)

/-- Model of `_determine_basic_tier`. -/
def determine_basic_tier (score : ℚ) : String :=
  if score ≥ 85 then "Burning"
  else if score ≥ 70 then "Hot"
  else if score ≥ 50 then "Warm"
  else if score ≥ 30 then "Cool"
  else "Cold"

/-- Model of `_determine_tier_v3`: authority upgrades, then budget-readiness
upgrade of Warm/Cool, else the basic tier. -/
def determine_tier_v3 (score : ℚ) (authority : AuthorityAnalysis)
    (budget : BudgetAnalysis) : String :=
  let base_tier := determine_basic_tier score
  if authority.level = "owner" ∧ score ≥ 60 then "Burning"
  else if authority.level = "executive" ∧ score ≥ 70 then "Hot"
  else if budget.readiness_indicators ∧ score ≥ 55 ∧
      (base_tier = "Warm" ∨ base_tier = "Cool") then "Hot"
  else base_tier

/-- Model of `_generate_content_hash`: the md5 digest is modeled as the hash
input itself, `author + ":" + first 200 characters of the
whitespace-collapsed, lowercased, stripped content`. -/
def generate_content_hash (content author : PyStr) : PyStr :=
  let normalized := collapse_ws (lower_text (py_strip content))
  author ++ s2l ":" ++ normalized.take 200

/-- One content item handed to `analyze_lead_v3` (comments are modeled by
their content strings). -/
structure V3Item where
  content : PyStr
  title : PyStr
  author : PyStr
  subreddit : PyStr
  comments : List PyStr
deriving DecidableEq

/-- The modeled fields of an `analyze_lead_v3` result dict. -/
structure V3Result where
  lead_score : ℚ
  tier : String
  is_qualified : Bool
deriving DecidableEq

/-- Model of `analyze_lead_v3`: duplicate check against the seen-hash state,
content-creator short-circuit, then the service-specific composite.  Returns
the result together with the updated seen-hash state. -/
def analyze_lead_v3 (seen : List PyStr) (item : V3Item) :
    V3Result × List PyStr :=
  let full_text := lower_text (item.title ++ s2l " " ++ item.content)
  let detected_service := detect_service_type item.content item.title item.subreddit
  let content_hash := generate_content_hash full_text item.author
  if content_hash ∈ seen then
    ({ lead_score := 0, tier := "Duplicate", is_qualified := false }, seen)
  else
    let seen2 := content_hash :: seen
    if detect_content_creator_v3 full_text item.title item.comments then
      ({ lead_score := 3, tier := "Filtered", is_qualified := false }, seen2)
    else
      let service_analysis := analyze_service_specific_patterns full_text detected_service
      let budget_analysis := analyze_budget_signals_advanced full_text
      let authority_analysis := assess_decision_authority full_text item.author
      let urgency_analysis := assess_urgency_indicators full_text detected_service
      let technical_score := assess_technical_sophistication full_text detected_service
      let competitor_analysis := analyze_competitive_landscape full_text
      let base_score :=
        service_analysis.score * (30 / 100) + budget_analysis.score * (25 / 100) +
          authority_analysis.score * (20 / 100) + urgency_analysis.score * (15 / 100) +
          technical_score * (10 / 100) + competitor_analysis * (5 / 100) +
          (if detected_service = "social_media" ∨ detected_service = "video_editing" ∨
              detected_service = "drone_services" then 5 else 0)
      let final_score := py_min 100 (py_max 0 base_score)
      ({ lead_score := final_score
         tier := determine_tier_v3 final_score authority_analysis budget_analysis
         is_qualified := decide (final_score ≥ 40 ∧
           authority_analysis.level ≠ "employee" ∧ urgency_analysis.level ≠ "low") },
       seen2)

/-- Score a batch sequentially through the shared seen-hash state (one run of
repeated `analyze_lead_v3` calls on one instance). -/
def analyze_batch_v3 (seen : List PyStr) : List V3Item → List V3Result
  | [] => []
  | item :: items =>
    let r := analyze_lead_v3 seen item
    r.1 :: analyze_batch_v3 r.2 items

/-! ## Concrete inputs used by the counterexamples and witnesses -/

/-- A prospect whose content hits all five semantic key terms and the general
urgency term `urgent`. -/
def c1_prospect : Prospect :=
  { content := s2l "urgent manufacturer supplier sourcing factory wholesale"
    title := []
    author := s2l "mfg_buyer"
    score := 7 }

/-- The lead the pipeline emits for `c1_prospect`: base ultra score 100
(clamped) plus urgency boost 3, for an attached lead score of 103. -/
def c1_lead : Lead :=
  { lead_score := 103
    base_score := 100
    urgency_boost := 3
    budget_boost := 0
    intelligence_boost := 0
    classification_tier := "Platinum"
    priority_level := "Immediate"
    author := s2l "mfg_buyer"
    engagement := 7
    authority_score := 0 }

/-- A prospect whose combined text has 17 characters (at least 15 but fewer
than 20) and contains the business term `need`. -/
def c8_short_prospect : Prospect :=
  { content := s2l "need help now ok", title := [], author := s2l "a", score := 0 }

/-- A sentinel-deleted prospect (`content = "[deleted]"`) with a long title,
so its combined text is neither short nor equal to a sentinel string. -/
def c8_deleted_prospect : Prospect :=
  { content := s2l "[deleted]"
    title := s2l "Need a business website for my shop now please"
    author := s2l "b"
    score := 0 }

/-- An advisor item: its text matches the advisor patterns `my journey`,
`lessons learned` and `ama` while also containing urgency/budget/authority
keywords (`urgent budget $50k ceo`). -/
def c3_item : V3Item :=
  { content := s2l "Here is how I did it, lessons learned along the way. urgent budget $50k ceo"
    title := s2l "My journey building a business AMA"
    author := s2l "guru"
    subreddit := s2l "entrepreneur"
    comments := [] }

/-- A plain buyer item used to exercise the dedup path of `analyze_lead_v3`. -/
def c4_item : V3Item :=
  { content := s2l "We need a supplier for custom drones, budget approved"
    title := s2l "Looking for manufacturer"
    author := s2l "buyer1"
    subreddit := s2l "manufacturing"
    comments := [] }

/-- First lead of the ranking counterexample: tied with `c6_lead_snd` on
score, urgency and budget; lower authority score but higher engagement. -/
def c6_lead_fst : Lead :=
  { lead_score := 50, base_score := 50, urgency_boost := 5, budget_boost := 5
    intelligence_boost := 0, classification_tier := "Silver"
    priority_level := "Medium", author := s2l "a", engagement := 5
    authority_score := 0 }

/-- Second lead of the ranking counterexample: higher authority score but
lower engagement than `c6_lead_fst`. -/
def c6_lead_snd : Lead :=
  { lead_score := 50, base_score := 50, urgency_boost := 5, budget_boost := 5
    intelligence_boost := 0, classification_tier := "Silver"
    priority_level := "Medium", author := s2l "b", engagement := 0
    authority_score := 10 }

/-! ## Helper lemmas -/

/-- The computable rational `min` agrees with the order-theoretic one. -/
lemma py_min_eq_min (a b : ℚ) : py_min a b = min a b := by
  unfold py_min
  split_ifs with h
  · exact (min_eq_left h).symm
  · exact (min_eq_right (le_of_not_le h)).symm

/-- The computable rational `max` agrees with the order-theoretic one. -/
lemma py_max_eq_max (a b : ℚ) : py_max a b = max a b := by
  unfold py_max
  split_ifs with h
  · exact (max_eq_right h).symm
  · exact (max_eq_left (le_of_not_le h)).symm

/-- Lower bound through `py_min`. -/
lemma le_py_min {a b c : ℚ} (h1 : c ≤ a) (h2 : c ≤ b) : c ≤ py_min a b := by
  rw [py_min_eq_min]
  exact le_min h1 h2

/-- The computable `min` is at most its left argument. -/
lemma py_min_le_left (a b : ℚ) : py_min a b ≤ a := by
  rw [py_min_eq_min]
  exact min_le_left a b

/-- The computable `min` is at most its right argument. -/
lemma py_min_le_right (a b : ℚ) : py_min a b ≤ b := by
  rw [py_min_eq_min]
  exact min_le_right a b

/-- The computable `max` dominates its left argument. -/
lemma le_py_max_left (a b : ℚ) : a ≤ py_max a b := by
  rw [py_max_eq_max]
  exact le_max_left a b

/-- Accumulating nonnegative boosts from a nonnegative start stays
nonnegative. -/
lemma foldl_boost_nonneg (t : PyStr) :
    ∀ (l : List (PyStr × ℚ)) (init : ℚ), 0 ≤ init → (∀ pb ∈ l, 0 ≤ pb.2) →
      0 ≤ l.foldl (fun acc pb => if contains_sub pb.1 t then acc + pb.2 else acc) init := by
  intro l
  induction l with
  | nil => intro init h _; simpa using h
  | cons hd tl ih =>
    intro init h hall
    simp only [List.foldl_cons]
    apply ih
    · split_ifs with hc
      · exact add_nonneg h (hall hd (List.mem_cons_self hd tl))
      · exact h
    · exact fun pb hpb => hall pb (List.mem_cons_of_mem hd hpb)

/-- A max-update fold never drops below its start value. -/
lemma foldl_max_ge_init (t : PyStr) :
    ∀ (l : List (PyStr × ℚ)) (init : ℚ),
      init ≤ l.foldl (fun acc km => if contains_sub km.1 t then py_max acc km.2 else acc) init := by
  intro l
  induction l with
  | nil => intro init; simp
  | cons hd tl ih =>
    intro init
    simp only [List.foldl_cons]
    refine le_trans ?_ (ih _)
    split_ifs with hc
    · exact le_py_max_left _ _
    · exact le_rfl

/-- Every boost in the intelligence pattern tables is nonnegative. -/
lemma intelligence_tables_nonneg :
    ∀ e ∈ intelligence_pattern_tables, ∀ pb ∈ e.2, 0 ≤ pb.2 := by decide

/-- Every boost returned by a table lookup is nonnegative. -/
lemma intelligence_pattern_table_nonneg (service_type : String) :
    ∀ pb ∈ intelligence_pattern_table service_type, 0 ≤ pb.2 := by
  intro pb hpb
  unfold intelligence_pattern_table at hpb
  cases hfind : intelligence_pattern_tables.find? (fun e => e.1 == service_type) with
  | none => rw [hfind] at hpb; simp at hpb
  | some e =>
    rw [hfind] at hpb
    simp only [Option.map_some', Option.getD_some] at hpb
    exact intelligence_tables_nonneg e (List.mem_of_find?_eq_some hfind) pb hpb

/-- The intelligence score is within `[0, 100]` for every input. -/
lemma intelligence_score_bounds (content title : PyStr) (service_type : String) :
    0 ≤ intelligence_score content title service_type ∧
      intelligence_score content title service_type ≤ 100 := by
  unfold intelligence_score
  refine ⟨le_py_min ?_ (by norm_num), py_min_le_right _ _⟩
  have hbase : 0 ≤ analyze_service_patterns_boost service_type
      (lower_text (title ++ s2l " " ++ content)) := by
    unfold analyze_service_patterns_boost
    exact le_py_min
      (foldl_boost_nonneg _ _ 0 le_rfl (intelligence_pattern_table_nonneg service_type))
      (by norm_num)
  have hurg : 0 ≤ analyze_urgency_multiplier (lower_text (title ++ s2l " " ++ content)) :=
    foldl_max_ge_init _ _ 0
  have hbud : 0 ≤ analyze_budget_multiplier (lower_text (title ++ s2l " " ++ content)) :=
    le_trans zero_le_one (foldl_max_ge_init _ _ 1)
  have hqual : 0 ≤ analyze_quality_modifier (lower_text (title ++ s2l " " ++ content)) := by
    unfold analyze_quality_modifier
    exact le_py_min (le_trans (by norm_num) (le_py_max_left _ _)) (by norm_num)
  exact mul_nonneg (mul_nonneg (mul_nonneg hbase hurg) hbud) hqual

/-- Casting a truncated natural minimum keeps the bound. -/
lemma cast_min_le_rat (x k : ℕ) : ((min x k : ℕ) : ℚ) ≤ (k : ℚ) := by
  exact_mod_cast Nat.min_le_right x k

/-- The urgency boost of `_detect_urgency` is within `[0, 15]`. -/
lemma detect_urgency_bounds (content title : PyStr) (config : ServiceConfig) :
    0 ≤ detect_urgency content title config ∧ detect_urgency content title config ≤ 15 := by
  unfold detect_urgency
  exact ⟨Nat.cast_nonneg _, cast_min_le_rat _ 15⟩

/-- The budget boost of `_detect_budget_signals` is within `[0, 12]`. -/
lemma detect_budget_bounds (content title : PyStr) (config : ServiceConfig) :
    0 ≤ detect_budget_signals content title config ∧
      detect_budget_signals content title config ≤ 12 := by
  unfold detect_budget_signals
  exact ⟨Nat.cast_nonneg _, cast_min_le_rat _ 12⟩

/-- The ultra final score is clamped to `[0, 100]`. -/
lemma ultra_final_score_bounds (a b c d : ℚ) :
    0 ≤ calculate_ultra_final_score a b c d ∧ calculate_ultra_final_score a b c d ≤ 100 := by
  unfold calculate_ultra_final_score
  exact ⟨le_py_min (by norm_num) (le_py_max_left _ _), py_min_le_left _ _⟩

/-- The base ultra score of `ultra_score_lead` is clamped to `[0, 100]`. -/
lemma ultra_score_lead_bounds (content title : PyStr) :
    0 ≤ (ultra_score_lead content title).ultra_score ∧
      (ultra_score_lead content title).ultra_score ≤ 100 := by
  unfold ultra_score_lead
  exact ultra_final_score_bounds _ _ _ _

/-- Any lead emitted by the `_score_leads_adaptively` loop body has its
attached score in `[0, 177]` (clamped base at most 100, urgency boost at most
15, budget boost at most 12, intelligence boost at most 50). -/
lemma score_prospect_bounds (service_type : String) (config : ServiceConfig)
    (p : Prospect) (l : Lead) (h : score_prospect service_type config p = some l) :
    0 ≤ l.lead_score ∧ l.lead_score ≤ 177 := by
  simp only [score_prospect] at h
  split at h
  · injection h with h
    subst h
    have hu := ultra_score_lead_bounds p.content p.title
    have hub := detect_urgency_bounds p.content p.title config
    have hbb := detect_budget_bounds p.content p.title config
    have hib := intelligence_score_bounds p.content p.title service_type
    dsimp only
    constructor
    · have : (0 : ℚ) ≤ intelligence_score p.content p.title service_type * (5 / 10) :=
        mul_nonneg hib.1 (by norm_num)
      linarith [hu.1, hub.1, hbb.1]
    · have : intelligence_score p.content p.title service_type * (5 / 10) ≤ 50 := by
        nlinarith [hib.2]
      linarith [hu.2, hub.2, hbb.2]
  · exact absurd h (by simp)

/-- The dedup loop output is a sublist of its input. -/
lemma dedup_by_author_sublist :
    ∀ (ls : List Lead) (k : ℕ) (seen : List PyStr),
      (dedup_by_author k seen ls).Sublist ls := by
  intro ls
  induction ls with
  | nil => intro k seen; simp [dedup_by_author]
  | cons hd tl ih =>
    intro k seen
    unfold dedup_by_author
    split
    · exact (ih _ _).cons₂ hd
    · exact (ih _ _).trans (List.sublist_cons_self hd tl)

/-- The dedup loop keeps at most `k` leads. -/
lemma dedup_by_author_length :
    ∀ (ls : List Lead) (k : ℕ) (seen : List PyStr),
      (dedup_by_author k seen ls).length ≤ k := by
  intro ls
  induction ls with
  | nil => intro k seen; simp [dedup_by_author]
  | cons hd tl ih =>
    intro k seen
    unfold dedup_by_author
    split
    · next hcond =>
      simp only [List.length_cons]
      have := ih (k - 1) (hd.author :: seen)
      omega
    · exact ih k seen

/-- No kept lead has an author from the seen set. -/
lemma dedup_by_author_not_seen :
    ∀ (ls : List Lead) (k : ℕ) (seen : List PyStr),
      ∀ l ∈ dedup_by_author k seen ls, l.author ∉ seen := by
  intro ls
  induction ls with
  | nil => intro k seen l hl; simp [dedup_by_author] at hl
  | cons hd tl ih =>
    intro k seen l hl
    unfold dedup_by_author at hl
    split at hl
    · next hcond =>
      rcases List.mem_cons.mp hl with h | h
      · subst h; exact hcond.1
      · intro hmem
        exact ih _ _ l h (List.mem_cons_of_mem _ hmem)
    · exact ih _ _ l hl

/-- Kept leads have pairwise distinct authors. -/
lemma dedup_by_author_pairwise :
    ∀ (ls : List Lead) (k : ℕ) (seen : List PyStr),
      (dedup_by_author k seen ls).Pairwise (fun a b => a.author ≠ b.author) := by
  intro ls
  induction ls with
  | nil => intro k seen; simp [dedup_by_author]
  | cons hd tl ih =>
    intro k seen
    unfold dedup_by_author
    split
    · refine List.Pairwise.cons ?_ (ih _ _)
      intro l hl heq
      exact dedup_by_author_not_seen tl _ _ l hl (heq ▸ List.mem_cons_self _ _)
    · exact ih _ _

/-- The scored-branch tier of `_determine_basic_tier` is never `Duplicate`. -/
lemma determine_basic_tier_ne_duplicate (score : ℚ) :
    determine_basic_tier score ≠ "Duplicate" := by
  unfold determine_basic_tier
  split_ifs <;> decide

/-- The scored-branch tier of `_determine_tier_v3` is never `Duplicate`. -/
lemma determine_tier_v3_ne_duplicate (score : ℚ) (a : AuthorityAnalysis)
    (b : BudgetAnalysis) : determine_tier_v3 score a b ≠ "Duplicate" := by
  unfold determine_tier_v3
  dsimp only
  split_ifs <;> first | decide | exact determine_basic_tier_ne_duplicate score

/-! ## Claim theorems -/

/-- C5: for any rule with positive weight, the per-rule contribution
`weight * min(matches, 3) * 0.8 ^ max(0, matches - 1)` at 2 matches is
strictly greater than at 1 match, but strictly less than twice the 1-match
contribution. -/
theorem c5_diminishing_returns (w : ℚ) (hw : 0 < w) :
    pattern_contribution w 1 < pattern_contribution w 2 ∧
      pattern_contribution w 2 < 2 * pattern_contribution w 1 := by
  unfold pattern_contribution
  norm_num
  constructor <;> nlinarith

/-- Witness for C5 at the concrete weight 10 (contributions 10 and 16). -/
theorem c5_diminishing_returns_witness :
    (0 : ℚ) < 10 ∧
      (pattern_contribution 10 1 < pattern_contribution 10 2 ∧
        pattern_contribution 10 2 < 2 * pattern_contribution 10 1) :=
  ⟨by norm_num, c5_diminishing_returns 10 (by norm_num)⟩

/-- C7: the urgency multiplier `1 + urgency_signals / 200` used by
`_calculate_ultra_final_score` lies in `[1, 1.5]` for every input text,
because `_detect_urgency_signals` is capped at 100; and the aggregation
applies exactly that multiplier to the pre-multiplier sum. -/
theorem c7_urgency_multiplier_bounds (content : PyStr)
    (semantic ensemble momentum : ℚ) :
    (1 ≤ 1 + detect_urgency_signals content / 200 ∧
      1 + detect_urgency_signals content / 200 ≤ 3 / 2) ∧
    calculate_ultra_final_score semantic ensemble momentum
        (detect_urgency_signals content) =
      py_min 100 (py_max 0 ((semantic + ensemble * (3 / 10) + momentum * (2 / 10)) *
        (1 + detect_urgency_signals content / 200))) := by
  have h0 : 0 ≤ detect_urgency_signals content := Nat.cast_nonneg _
  have h100 : detect_urgency_signals content ≤ 100 := by
    unfold detect_urgency_signals
    exact_mod_cast Nat.min_le_left 100 _
  refine ⟨⟨by linarith, by linarith⟩, rfl⟩

/-- C9: the composite of `_calculate_weighted_composite` is the clamp at 0 of
the pre-clamp sum; the pre-clamp sum is linear in the negative dimension with
no lower cap on the penalty itself, so a strongly negative penalty can drive
the pre-clamp sum below any bound; only the final result is floored at 0. -/
theorem c9_penalty_uncapped (s : DimScores)
    (context_bonus engagement_score semantic_relevance : ℚ) :
    calculate_weighted_composite s context_bonus engagement_score semantic_relevance =
      py_max 0 (weighted_composite_pre s context_bonus engagement_score semantic_relevance) ∧
    (∀ n : ℚ,
      weighted_composite_pre { s with negative := n }
          context_bonus engagement_score semantic_relevance =
        weighted_composite_pre { s with negative := 0 }
          context_bonus engagement_score semantic_relevance + n) ∧
    (∀ B : ℚ, ∃ n : ℚ,
      weighted_composite_pre { s with negative := n }
          context_bonus engagement_score semantic_relevance < B) := by
  refine ⟨rfl, ?_, ?_⟩
  · intro n
    unfold weighted_composite_pre
    dsimp only
    ring
  · intro B
    refine ⟨B - weighted_composite_pre { s with negative := 0 }
        context_bonus engagement_score semantic_relevance - 1, ?_⟩
    unfold weighted_composite_pre
    dsimp only
    ring_nf
    linarith

/-- C2 counterexample: `_enterprise_classify` ignores the dimension scores,
so a composite score of 92 with budget score 2 and authority score 2 IS
classified Platinum there, refuting the claim that every classifier gates
Platinum on budget ≥ 15 and authority ≥ 12. -/
theorem c2_enterprise_classify_ungated :
    enterprise_classify 92 ⟨0, 2, 2, 0, 0, 0⟩ = ("Platinum", "Immediate") := by
  decide

/-- C2 amended: `UltraPreciseAI._determine_tier` does follow the gated
first-match table — with budget 2 and authority 2 a composite of 92 falls
through to Bronze, and Platinum holds exactly under the gate — while
`UltraAdvancedScoringV100._enterprise_classify` ignores the dimension scores
entirely and classifies any composite ≥ 90 as Platinum. -/
theorem c2_amended_tier_gating :
    (∀ s : DimScores, s.budget = 2 → s.authority = 2 → determine_tier 92 s = "Bronze") ∧
    (∀ (c : ℚ) (s : DimScores),
      determine_tier c s = "Platinum" ↔ c ≥ 90 ∧ s.budget ≥ 15 ∧ s.authority ≥ 12) ∧
    (∀ (c : ℚ) (s t : DimScores), enterprise_classify c s = enterprise_classify c t) ∧
    (∀ (c : ℚ) (s : DimScores), c ≥ 90 → (enterprise_classify c s).1 = "Platinum") := by
  refine ⟨?_, ?_, ?_, ?_⟩
  · intro s hb ha
    unfold determine_tier
    rw [hb, ha]
    norm_num
  · intro c s
    unfold determine_tier
    split_ifs with h1 h2 h3 h4
    · exact iff_of_true rfl h1
    · exact iff_of_false (by decide) h1
    · exact iff_of_false (by decide) h1
    · exact iff_of_false (by decide) h1
    · exact iff_of_false (by decide) h1
  · intro c s t
    rfl
  · intro c s hc
    unfold enterprise_classify
    rw [if_pos hc]

/-- Witness for C2: the amended theorem applied at budget 2 / authority 2 and
at an above-threshold composite. -/
theorem c2_amended_tier_gating_witness :
    determine_tier 92 ⟨5, 2, 2, 0, 0, 0⟩ = "Bronze" ∧
      (determine_tier 95 ⟨0, 20, 14, 0, 0, 0⟩ = "Platinum" ↔
        (95 : ℚ) ≥ 90 ∧ (20 : ℚ) ≥ 15 ∧ (14 : ℚ) ≥ 12) ∧
      (enterprise_classify 92 ⟨0, 2, 2, 0, 0, 0⟩).1 = "Platinum" :=
  ⟨c2_amended_tier_gating.1 ⟨5, 2, 2, 0, 0, 0⟩ rfl rfl,
    c2_amended_tier_gating.2.1 95 ⟨0, 20, 14, 0, 0, 0⟩,
    c2_amended_tier_gating.2.2.2 92 ⟨0, 2, 2, 0, 0, 0⟩ (by norm_num)⟩

/-- C8 counterexample: the prefilter keeps a prospect whose combined text has
17 characters (the source threshold is 15, not the claimed 20), and keeps a
sentinel-deleted prospect (`content = "[deleted]"`) whose title makes the
combined text differ from the bare sentinel string. -/
theorem c8_prefilter_counterexample :
    fast_prefilter [c8_short_prospect, c8_deleted_prospect] (s2l "website development") =
      [c8_short_prospect, c8_deleted_prospect] ∧
    (combined_text c8_short_prospect).length = 17 ∧
    c8_deleted_prospect.content = s2l "[deleted]" := by
  exact ⟨by decide, by decide, rfl⟩

/-- C8 amended: the prefilter keeps an item iff its combined lowercased text
`content + " " + title` has at least 15 characters, is not literally
`"[deleted]"`, `"[removed]"` or empty, and shares a word with the
service-description vocabulary or with the generic business-term set. -/
theorem c8_amended_prefilter_characterization (service_description : PyStr)
    (prospects : List Prospect) (p : Prospect) :
    p ∈ fast_prefilter prospects service_description ↔
      p ∈ prospects ∧ 15 ≤ (combined_text p).length ∧
        combined_text p ≠ s2l "[deleted]" ∧ combined_text p ≠ s2l "[removed]" ∧
        combined_text p ≠ [] ∧
        ((split_ws (combined_text p)).any
            (fun w => (split_ws (lower_text service_description)).contains w) = true ∨
          (split_ws (combined_text p)).any (fun w => business_terms.contains w) = true) := by
  unfold fast_prefilter
  rw [List.mem_filter]
  refine and_congr_right fun _ => ?_
  unfold prefilter_keeps
  dsimp only
  split_ifs with hC
  · constructor
    · intro h
      exact absurd h (by simp)
    · rintro ⟨h15, hd, hr, he, _⟩
      rcases hC with h | h | h | h
      · omega
      · exact absurd h hd
      · exact absurd h hr
      · exact absurd h he
  · push_neg at hC
    obtain ⟨h1, h2, h3, h4⟩ := hC
    rw [Bool.or_eq_true]
    constructor
    · intro h
      exact ⟨by omega, h2, h3, h4, h⟩
    · rintro ⟨_, _, _, _, h⟩
      exact h

/-- C1 counterexample: the pipeline attaches lead score 103 to `c1_prospect`
(base ultra score clamped at 100, plus an urgency boost of 3), so the score
attached after service-specific boosts is NOT clamped to `[0, 100]`. -/
theorem c1_pipeline_score_exceeds_100 :
    score_leads_adaptively [c1_prospect] "manufacturing & sourcing"
        manufacturing_sourcing_config (s2l "manufacturing & sourcing") = [c1_lead] ∧
      c1_lead.lead_score = 103 ∧ ¬ c1_lead.lead_score ≤ 100 := by
  exact ⟨by with_unfolding_all rfl, by decide, by decide⟩

/-- C1 amended: the `UltraPreciseAI` lead score is clamped to `[0, 100]`, and
the pipeline lead score equals the clamped base plus nonnegative boosts
(urgency ≤ 15, budget ≤ 12, intelligence ≤ 50), hence lies in `[0, 177]` —
but it is not clamped at 100. -/
theorem c1_amended_score_bounds :
    (∀ (s : DimScores) (context_bonus engagement_score semantic_relevance : ℚ),
      0 ≤ (analyze_lead_ultra_precise s context_bonus engagement_score
          semantic_relevance).lead_score ∧
        (analyze_lead_ultra_precise s context_bonus engagement_score
          semantic_relevance).lead_score ≤ 100) ∧
    (∀ (prospects : List Prospect) (service_type : String) (config : ServiceConfig)
        (service_description : PyStr) (l : Lead),
      l ∈ score_leads_adaptively prospects service_type config service_description →
        0 ≤ l.lead_score ∧ l.lead_score ≤ 177) := by
  constructor
  · intro s context_bonus engagement_score semantic_relevance
    unfold analyze_lead_ultra_precise
    dsimp only
    exact ⟨le_py_min (by norm_num) (le_py_max_left _ _), py_min_le_left _ _⟩
  · intro prospects service_type config service_description l hl
    unfold score_leads_adaptively at hl
    rw [List.mem_filterMap] at hl
    obtain ⟨p, _, hp⟩ := hl
    exact score_prospect_bounds service_type config p l hp

/-- Witness for C1: the amended bounds applied to the concrete pipeline lead
of score 103 and to a concrete dimension-score record. -/
theorem c1_amended_score_bounds_witness :
    (0 ≤ c1_lead.lead_score ∧ c1_lead.lead_score ≤ 177) ∧
      (0 ≤ (analyze_lead_ultra_precise ⟨10, 20, 15, 5, -5, 5⟩ 10 10 10).lead_score ∧
        (analyze_lead_ultra_precise ⟨10, 20, 15, 5, -5, 5⟩ 10 10 10).lead_score ≤ 100) :=
  ⟨c1_amended_score_bounds.2 [c1_prospect] "manufacturing & sourcing"
      manufacturing_sourcing_config (s2l "manufacturing & sourcing") c1_lead
      (of_decide_eq_true (by with_unfolding_all rfl)),
    c1_amended_score_bounds.1 ⟨10, 20, 15, 5, -5, 5⟩ 10 10 10⟩

/-- C6 counterexample: two leads tied on (score, urgency, budget) where the
first has higher engagement but lower authority score: the code ranks by
engagement directly after budget, so the returned list is not sorted by the
spec's claimed key, which puts authority before engagement. -/
theorem c6_no_authority_tiebreak :
    rank_and_optimize [c6_lead_fst, c6_lead_snd] 50 = [c6_lead_fst, c6_lead_snd] ∧
      spec_sort_key c6_lead_fst < spec_sort_key c6_lead_snd ∧
      ¬ spec_ranked (rank_and_optimize [c6_lead_fst, c6_lead_snd] 50) := by
  have heq : rank_and_optimize [c6_lead_fst, c6_lead_snd] 50 =
      [c6_lead_fst, c6_lead_snd] := by decide
  refine ⟨heq, by decide, ?_⟩
  rw [heq]
  intro hs
  have hrel := List.rel_of_sorted_cons hs c6_lead_snd (List.mem_singleton_self _)
  exact absurd hrel (by decide)

/-- C6 amended: the returned ranked list is sorted descending by the code's
key (lead score, then urgency boost, then budget boost, then the original
engagement metric — with no authority tie-break), and its length never
exceeds the requested maximum. -/
theorem c6_amended_ranking (leads : List Lead) (max_results : ℕ) :
    List.Sorted lead_order (rank_and_optimize leads max_results) ∧
      (rank_and_optimize leads max_results).length ≤ max_results := by
  constructor
  · exact List.Pairwise.sublist (dedup_by_author_sublist _ _ _)
      (List.sorted_insertionSort lead_order leads)
  · exact dedup_by_author_length _ _ _

/-- C10: the final ranked output deduplicates by exact author name — no two
results in the returned list share an author — and the list length never
exceeds the requested maximum. -/
theorem c10_author_dedup_invariant (leads : List Lead) (max_results : ℕ) :
    (rank_and_optimize leads max_results).Pairwise (fun a b => a.author ≠ b.author) ∧
      (rank_and_optimize leads max_results).length ≤ max_results :=
  ⟨dedup_by_author_pairwise _ _ _, dedup_by_author_length _ _ _⟩

/-- C3: for an item not already seen in the run, if its lowercased combined
text matches at least 2 advisor patterns — counting each pattern once, and
adding 2 when more than 3 of the item's comments contain a question mark —
then `analyze_lead_v3` short-circuits before any dimension scoring and
returns the fixed minimal score 3 with tier `Filtered` and qualified false,
regardless of any urgency/budget/authority keyword density in the item. -/
theorem c3_nonprospect_short_circuit (seen : List PyStr) (item : V3Item)
    (hfresh : generate_content_hash
        (lower_text (item.title ++ s2l " " ++ item.content)) item.author ∉ seen)
    (hpatterns : 2 ≤ (creator_patterns_v3 ++ enhanced_patterns_v3).countP
        (fun p => contains_sub p (lower_text (item.title ++ s2l " " ++ item.content))) +
      (if 3 < count_question_comments item.comments then 2 else 0)) :
    (analyze_lead_v3 seen item).1 =
      { lead_score := 3, tier := "Filtered", is_qualified := false } := by
  have hdet : detect_content_creator_v3
      (lower_text (item.title ++ s2l " " ++ item.content)) item.title item.comments = true := by
    unfold detect_content_creator_v3 strong_indicator_count
    exact decide_eq_true hpatterns
  simp only [analyze_lead_v3]
  rw [if_neg hfresh, if_pos hdet]

/-- Witness for C3: the advisor item `c3_item` (matching `my journey`,
`lessons learned` and `ama` while containing `urgent budget $50k ceo`) is
filtered with score 3. -/
theorem c3_nonprospect_short_circuit_witness :
    (analyze_lead_v3 [] c3_item).1 =
      { lead_score := 3, tier := "Filtered", is_qualified := false } :=
  c3_nonprospect_short_circuit [] c3_item (List.not_mem_nil _) (by decide)

/-- C4: the dedup fingerprint is `author + ":" + first 200 characters of the
whitespace-collapsed lowercased text`, so scoring two items with the same
author whose normalized texts agree on the first 200 characters (in
particular, the same item twice) in one run yields a first result that is not
a duplicate and a second result with tier `Duplicate` and score 0. -/
theorem c4_dedup_fingerprint (seen : List PyStr) (i1 i2 : V3Item)
    (hfresh : generate_content_hash
        (lower_text (i1.title ++ s2l " " ++ i1.content)) i1.author ∉ seen)
    (hauthor : i1.author = i2.author)
    (hpre200 : (collapse_ws (lower_text (py_strip
        (lower_text (i1.title ++ s2l " " ++ i1.content))))).take 200 =
      (collapse_ws (lower_text (py_strip
        (lower_text (i2.title ++ s2l " " ++ i2.content))))).take 200) :
    (analyze_lead_v3 seen i1).1.tier ≠ "Duplicate" ∧
      (analyze_lead_v3 (analyze_lead_v3 seen i1).2 i2).1.tier = "Duplicate" ∧
      (analyze_lead_v3 (analyze_lead_v3 seen i1).2 i2).1.lead_score = 0 := by
  have hhash : generate_content_hash
      (lower_text (i2.title ++ s2l " " ++ i2.content)) i2.author =
      generate_content_hash (lower_text (i1.title ++ s2l " " ++ i1.content)) i1.author := by
    unfold generate_content_hash
    dsimp only
    rw [← hauthor, ← hpre200]
  have hstate : (analyze_lead_v3 seen i1).2 =
      generate_content_hash (lower_text (i1.title ++ s2l " " ++ i1.content)) i1.author
        :: seen ∧ (analyze_lead_v3 seen i1).1.tier ≠ "Duplicate" := by
    simp only [analyze_lead_v3]
    rw [if_neg hfresh]
    by_cases hc : detect_content_creator_v3
        (lower_text (i1.title ++ s2l " " ++ i1.content)) i1.title i1.comments = true
    · rw [if_pos hc]
      refine ⟨rfl, ?_⟩
      dsimp only
      decide
    · rw [if_neg hc]
      dsimp only
      exact ⟨rfl, determine_tier_v3_ne_duplicate _ _ _⟩
  obtain ⟨hs2, hne⟩ := hstate
  have hdup2 : (analyze_lead_v3 (generate_content_hash
      (lower_text (i1.title ++ s2l " " ++ i1.content)) i1.author :: seen) i2).1 =
      { lead_score := 0, tier := "Duplicate", is_qualified := false } := by
    simp only [analyze_lead_v3]
    rw [hhash, if_pos (List.mem_cons_self _ _)]
  refine ⟨hne, ?_, ?_⟩
  · rw [hs2, hdup2]
  · rw [hs2, hdup2]

/-- Witness for C4: scoring `c4_item` twice in one run starting from an empty
seen set yields one non-duplicate result and one `Duplicate` result with
score 0. -/
theorem c4_dedup_fingerprint_witness :
    (analyze_lead_v3 [] c4_item).1.tier ≠ "Duplicate" ∧
      (analyze_lead_v3 (analyze_lead_v3 [] c4_item).2 c4_item).1.tier = "Duplicate" ∧
      (analyze_lead_v3 (analyze_lead_v3 [] c4_item).2 c4_item).1.lead_score = 0 :=
  c4_dedup_fingerprint [] c4_item c4_item (List.not_mem_nil _) rfl rfl
